import Mathlib

/-!
Shallow embedding of pypopper (src/pypopper.py), a file-based POP3 test
server, together with proofs about its line framer, command dispatch and
response handlers.  Python strings are embedded as Lean `String`
(operations that need positional access work on `List Char`), machine
integers as `Int`, the socket stream as a list of already-decoded chunks,
and Python exceptions as an explicit `Except` result.
-/

namespace Pypopper

/-- Python whitespace set used by str.split and int conversion (ASCII part). -/
def pyIsSpace (c : Char) : Bool :=
  c == ' ' || c == '\t' || c == '\n' || c == '\r' || c == '\x0b' || c == '\x0c'

/-- First occurrence of `pat` in `s`, Python `s.index(pat)`: the text strictly
before the first occurrence together with the text strictly after it.
`none` models Python `pat not in s` (`str.index` raising ValueError). -/
def splitFirst (pat : List Char) : List Char → Option (List Char × List Char)
  | [] => if pat.isEmpty then some ([], []) else none
  | c :: t =>
    if pat.isPrefixOf (c :: t) then some ([], (c :: t).drop pat.length)
    else
      match splitFirst pat t with
      | some (a, b) => some (c :: a, b)
      | none => none

/-- Python `pat in s` on strings (substring containment). -/
def containsSub (pat s : List Char) : Bool :=
  (splitFirst pat s).isSome

/-- Python `s.split(sep)` for a nonempty separator, keeping empty fields.
The fuel starts at `s.length + 1`, which bounds the number of separator
occurrences, so it is never exhausted for a nonempty separator. -/
def splitOnChGo (pat : List Char) : Nat → List Char → List (List Char)
  | 0, s => [s]
  | fuel + 1, s =>
    match splitFirst pat s with
    | none => [s]
    | some (a, b) => a :: splitOnChGo pat fuel b

/-- Python `s.split(sep)`; in this program `sep` is always `"\n"`. -/
def splitOnCh (pat s : List Char) : List (List Char) :=
  splitOnChGo pat (s.length + 1) s

/-- Python `str.lower` on one character (ASCII, the only case this program
meets: command verbs). -/
def pyLowerChar (c : Char) : Char :=
  if 'A' ≤ c ∧ c ≤ 'Z' then Char.ofNat (c.toNat + 32) else c

/-- Python `s.lower()` (ASCII). -/
def pyLower (s : String) : String := String.mk (s.toList.map pyLowerChar)

/-- Python `sep.join(parts)`. -/
def joinSep (sep : String) : List String → String
  | [] => ""
  | [a] => a
  | a :: rest => a ++ sep ++ joinSep sep rest

/-- Python `os.path.basename`: the part of the path after the last slash. -/
def pyBasename (p : String) : String :=
  String.mk (p.toList.foldl (fun acc c => if c = '/' then [] else acc ++ [c]) [])

/-- Python `line.split(maxsplit=1)`: leading whitespace dropped, first token,
then the rest of the line (leading whitespace of the rest dropped, trailing
kept); at most two parts, no empty parts. -/
def pySplit1 (line : String) : List String :=
  let cs := line.toList.dropWhile pyIsSpace
  if cs.isEmpty then []
  else
    let tok := cs.takeWhile (fun c => !pyIsSpace c)
    let rest := (cs.dropWhile (fun c => !pyIsSpace c)).dropWhile pyIsSpace
    if rest.isEmpty then [String.mk tok] else [String.mk tok, String.mk rest]

/-- Python `s.split()` with no arguments: all whitespace-separated words. -/
def pyWordsGo : List Char → List Char → List String
  | acc, [] => if acc.isEmpty then [] else [String.mk acc.reverse]
  | acc, c :: rest =>
    if pyIsSpace c then
      if acc.isEmpty then pyWordsGo [] rest
      else String.mk acc.reverse :: pyWordsGo [] rest
    else pyWordsGo (c :: acc) rest

/-- Python `s.split()` with no arguments. -/
def pyWords (s : String) : List String := pyWordsGo [] s.toList

/-- Digit run accepted by Python `int()`: nonempty ASCII digits with single
underscores allowed strictly between digits. -/
def digitsUnderscoreOk : List Char → Bool
  | [] => false
  | [c] => c.isDigit
  | c :: '_' :: rest => c.isDigit && digitsUnderscoreOk rest
  | c :: rest => c.isDigit && digitsUnderscoreOk rest

/-- Numeric value of a digit run, ignoring underscores. -/
def digitsVal (cs : List Char) : Nat :=
  (cs.filter (fun c => c ≠ '_')).foldl (fun n c => 10 * n + (c.toNat - '0'.toNat)) 0

/-- Python `int(s)` on a string: surrounding whitespace stripped, optional
sign, ASCII digit run; `none` models the ValueError raised otherwise. -/
def pyInt (s : String) : Option Int :=
  let cs := ((s.toList.dropWhile pyIsSpace).reverse.dropWhile pyIsSpace).reverse
  match cs with
  | '+' :: rest => if digitsUnderscoreOk rest then some (digitsVal rest) else none
  | '-' :: rest => if digitsUnderscoreOk rest then some (-(digitsVal rest : Int)) else none
  | rest => if digitsUnderscoreOk rest then some (digitsVal rest) else none

/-- Python slice `l[:k]` for an `int` bound `k`: a negative bound counts from
the end, a bound past the end yields the whole list. -/
def pyTakeTo (l : List α) (k : Int) : List α :=
  if k < 0 then l.take (l.length - (-k).toNat) else l.take k.toNat

/-- Python list indexing `l[i]`: negative indices count from the end;
`none` models IndexError. -/
def pyListGet (l : List α) (i : Int) : Option α :=
  if 0 ≤ i then l[i.toNat]?
  else if 0 ≤ i + l.length then l[(i + l.length).toNat]? else none

/-! ## ChatterboxConnection: the line framer (`recvall`)

The socket is modelled as the list of chunks that successive `recv` calls
return, each already decoded to text; an exhausted list models the peer
having closed the connection (`recv` returning an empty chunk).  An
explicit empty chunk in the list is treated the same way, exactly as in the
source.  `recvall` returns the line it produced (`none` for connection
closed with nothing accumulated) and the chunks it did not consume. -/

/-- The line delimiter `ChatterboxConnection.end`. -/
def crlf : List Char := ['\r', '\n']

/-- The receive loop of `ChatterboxConnection.recvall`.  `dataRev` is the
accumulated `data` list in reverse (Python appends at the end). -/
def recvallGo (dlm : List Char) :
    List (List Char) → List (List Char) → Option (List Char) × List (List Char)
  | dataRev, [] =>
    if dataRev.isEmpty then (none, []) else (some dataRev.reverse.flatten, [])
  | dataRev, chunk :: rest =>
    if chunk.isEmpty then
      -- the connection has gone away
      (if dataRev.isEmpty then none else some dataRev.reverse.flatten, rest)
    else
      match splitFirst dlm chunk with
      | some (a, _) =>
        -- FIXME in the source: the rest of the chunk is thrown away here
        (some ((a :: dataRev).reverse.flatten), rest)
      | none =>
        match dataRev with
        | prev :: others =>
          -- len(data) > 1: look for the delimiter across the chunk boundary
          (match splitFirst dlm (prev ++ chunk) with
           | some (a, _) => (some ((a :: others).reverse.flatten), rest)
           | none => recvallGo dlm (chunk :: prev :: others) rest)
        | [] => recvallGo dlm [chunk] rest

/-- `ChatterboxConnection.recvall` with the default delimiter argument. -/
def recvall (dlm : List Char) (chunks : List (List Char)) :
    Option (List Char) × List (List Char) :=
  recvallGo dlm [] chunks

/-! ## Message and MessageList -/

/-- A `Message`: the backing file path and the text `data()` reads from it.
The file contents never change while the server runs, so the lazy cached
read of the source is modelled by carrying the text directly; `size()`
(cached `len` or `os.stat` size) is its length. -/
structure Message where
  filename : String
  content : String
deriving DecidableEq

/-- `Message.uid`: the basename of the source file name. -/
def Message.uid (m : Message) : String := pyBasename m.filename

/-- `Message.data()`: the entire message text. -/
def Message.data (m : Message) : String := m.content

/-- `Message.size()`: the length of the message text. -/
def Message.size (m : Message) : Nat := m.content.length

/-- The header/body split used by `Message._head` and `Message._body`:
the text before the first `"\n\n"` and the text after it. -/
def lflf : List Char := ['\n', '\n']

/-- Python exception argument values occurring in this program. -/
inductive PyVal where
  | s (v : String)
  | i (v : Int)
deriving DecidableEq

/-- A single quote character, written with an escape. -/
def sq : String := "\x27"

/-- Python `str(v)` for an exception argument. -/
def PyVal.str : PyVal → String
  | .s v => v
  | .i v => toString v

/-- Python `repr(v)` for an exception argument (strings in this program
contain no characters that repr would escape). -/
def PyVal.rep : PyVal → String
  | .s v => sq ++ v ++ sq
  | .i v => toString v

/-- The exceptions this program raises: `ValueError(*args)` and the
IndexError from `[].pop(0)` in `process_line`. -/
inductive PyExn where
  | valueError (args : List PyVal)
  | indexError
deriving DecidableEq

/-- Python `str(e)` on an exception: the single argument for one argument,
the repr of the argument tuple otherwise. -/
def PyExn.str : PyExn → String
  | .valueError [] => ""
  | .valueError [a] => a.str
  | .valueError as => "(" ++ joinSep ", " (as.map PyVal.rep) ++ ")"
  | .indexError => "pop from empty list"

/-- `Message.top(lines)`: the header, a blank line, and (for a nonzero
`lines` count, by Python truthiness) the first `lines` body lines joined
with CRLF; a message without a `"\n\n"` separator raises the ValueError of
`str.index`. -/
def Message.top (m : Message) (lines : Int) : Except PyExn String :=
  match splitFirst lflf m.content.toList with
  | none => .error (.valueError [.s "substring not found"])
  | some (hd, bd) =>
    let result := String.mk hd ++ "\r\n\r\n"
    if lines = 0 then .ok result
    else .ok (result ++ joinSep "\r\n" ((pyTakeTo (splitOnCh ['\n'] bd) lines).map String.mk))

/-- `MessageList.refresh`: walk the configured sources in order, keep the
ones that exist on the file system and wrap each in a `Message`.  The file
system is modelled as an association list from path to file text. -/
def refresh (fs : List (String × String)) (sources : List String) : List Message :=
  sources.filterMap fun fn =>
    (fs.lookup fn).map fun content => { filename := fn, content := content }

/-! ## POPConnection -/

/-- Per-connection state: the shared message list and the `connected` flag. -/
structure POPConnection where
  messages : List Message
  connected : Bool
deriving DecidableEq

/-- Result of a handler: the updated connection state and the lines it sent
(each line is written to the socket followed by the CRLF delimiter), or the
exception it raised. -/
abbrev HResult := Except PyExn (POPConnection × List String)

/-- `send_msg`: join the stringified arguments with single spaces. -/
def send_msg (args : List String) : String := joinSep " " args

/-- `send_err`: a `-ERR` response. -/
def send_err (args : List String) : String := send_msg ("-ERR" :: args)

/-- `send_ok`: a `+OK` response. -/
def send_ok (args : List String) : String := send_msg ("+OK" :: args)

/-- `_param1unused`: reject a present parameter. -/
def param1unused (p : Option String) : Except PyExn Unit :=
  match p with
  | some v => .error (.valueError [.s "bad args", .s v])
  | none => .ok ()

/-- `_param1used`: require a parameter. -/
def param1used (p : Option String) : Except PyExn Unit :=
  match p with
  | some _ => .ok ()
  | none => .error (.valueError [.s "missing args"])

/-- `_param2message`: parse a message number and resolve it against the
message list with Python list indexing; a failed parse raises
`ValueError("bad number", param)` and a failed lookup raises
`ValueError("bad message number", msgno)`. -/
def param2message (msgs : List Message) (param : String) :
    Except PyExn (Message × Int) :=
  match pyInt param with
  | none => .error (.valueError [.s "bad number", .s param])
  | some msgno =>
    match pyListGet msgs (msgno - 1) with
    | none => .error (.valueError [.s "bad message number", .i msgno])
    | some m => .ok (m, msgno)

/-- `handle_unknown`. -/
def handle_unknown (_st : POPConnection) (_p : Option String) : HResult :=
  .error (.valueError [.s "unknown command"])

/-- `handle_user`. -/
def handle_user (st : POPConnection) (p : Option String) : HResult :=
  match param1used p with
  | .error e => .error e
  | .ok _ => .ok (st, [send_ok ["user accepted"]])

/-- `handle_pass`. -/
def handle_pass (st : POPConnection) (p : Option String) : HResult :=
  match param1used p with
  | .error e => .error e
  | .ok _ => .ok (st, [send_ok ["pass accepted"]])

/-- `handle_capa`. -/
def handle_capa (st : POPConnection) (p : Option String) : HResult :=
  match param1unused p with
  | .error e => .error e
  | .ok _ =>
    .ok (st, [send_ok ["Capability list follows\r\nTOP\r\nUSER\r\nUIDL\r\n."]])

/-- `handle_stat`: the message count and the accumulated total size. -/
def handle_stat (st : POPConnection) (p : Option String) : HResult :=
  match param1unused p with
  | .error e => .error e
  | .ok _ =>
    let size := st.messages.foldl (fun a m => a + m.size) 0
    .ok (st, [send_ok [toString st.messages.length, toString size]])

/-- The numbered `"msgno size"` lines of the parameterless LIST response. -/
def listLines : Nat → List Message → List String
  | _, [] => []
  | n, m :: rest => (toString n ++ " " ++ toString m.size ++ "\r\n") :: listLines (n + 1) rest

/-- The parameterless branch of `handle_list`. -/
def handle_list_all (st : POPConnection) : HResult :=
  let size := st.messages.foldl (fun a m => a + m.size) 0
  let out := (toString st.messages.length ++ " messages (" ++ toString size ++ " octets)\r\n")
      :: listLines 1 st.messages ++ ["."]
  .ok (st, [send_ok [String.join out]])

/-- `handle_list`; an empty-string parameter is falsy in Python and selects
the full listing. -/
def handle_list (st : POPConnection) (p : Option String) : HResult :=
  match p with
  | some d =>
    if d = "" then handle_list_all st
    else
      match param2message st.messages d with
      | .error e => .error e
      | .ok (m, msgno) => .ok (st, [send_ok [toString msgno, toString m.size]])
  | none => handle_list_all st

/-- The numbered `"msgno uid"` lines of the parameterless UIDL response. -/
def uidlLines : Nat → List Message → List String
  | _, [] => []
  | n, m :: rest => (toString n ++ " " ++ m.uid ++ "\r\n") :: uidlLines (n + 1) rest

/-- The parameterless branch of `handle_uidl`. -/
def handle_uidl_all (st : POPConnection) : HResult :=
  let out := "unique-id listing follows\r\n" :: uidlLines 1 st.messages ++ ["."]
  .ok (st, [send_ok [String.join out]])

/-- `handle_uidl`. -/
def handle_uidl (st : POPConnection) (p : Option String) : HResult :=
  match p with
  | some d =>
    if d = "" then handle_uidl_all st
    else
      match param2message st.messages d with
      | .error e => .error e
      | .ok (m, msgno) => .ok (st, [send_ok [toString msgno, m.uid]])
  | none => handle_uidl_all st

/-- The ValueError raised by unpacking `param.split()` into two names when
the word count is not two. -/
def unpackErr (n : Nat) : PyExn :=
  if n < 2 then
    .valueError [.s ("not enough values to unpack (expected 2, got " ++ toString n ++ ")")]
  else .valueError [.s "too many values to unpack (expected 2)"]

/-- `handle_top`: split the parameter into a message number and a line
count, resolve the message, parse the count, and send the top of the
message. -/
def handle_top (st : POPConnection) (p : Option String) : HResult :=
  match p with
  | none => .error (.valueError [.s "missing args"])
  | some param =>
    match pyWords param with
    | [num, linesStr] =>
      match param2message st.messages num with
      | .error e => .error e
      | .ok (msg, _) =>
        match pyInt linesStr with
        | none => .error (.valueError [.s "bad number", .s linesStr])
        | some lines =>
          match msg.top lines with
          | .error e => .error e
          | .ok t => .ok (st, [send_ok ["top of message follows\r\n" ++ t ++ "\r\n."]])
    | ws => .error (unpackErr ws.length)

/-- `handle_retr`: the full message text with its octet count. -/
def handle_retr (st : POPConnection) (p : Option String) : HResult :=
  match p with
  | none => .error (.valueError [.s "missing args"])
  | some param =>
    match param2message st.messages param with
    | .error e => .error e
    | .ok (msg, _) =>
      .ok (st, [send_ok [toString msg.data.length ++ " octets\r\n" ++ msg.data ++ "\r\n."]])

/-- `handle_dele`: resolves the message but deletes nothing. -/
def handle_dele (st : POPConnection) (p : Option String) : HResult :=
  match p with
  | none => .error (.valueError [.s "missing args"])
  | some param =>
    match param2message st.messages param with
    | .error e => .error e
    | .ok (_, msgno) => .ok (st, [send_ok ["message", toString msgno, "deleted (fake)"]])

/-- `handle_noop`. -/
def handle_noop (st : POPConnection) (p : Option String) : HResult :=
  match param1unused p with
  | .error e => .error e
  | .ok _ => .ok (st, [send_ok []])

/-- `handle_quit`: sign off and clear the `connected` flag. -/
def handle_quit (st : POPConnection) (p : Option String) : HResult :=
  match param1unused p with
  | .error e => .error e
  | .ok _ => .ok ({ st with connected := false }, [send_ok ["pypopper POP3 server signing off"]])

/-- `get_handler`: `getattr(self, "handle_" + command.lower())` with the
fallback to `handle_unknown`. -/
def get_handler (command : String) (st : POPConnection) (p : Option String) : HResult :=
  if "handle_" ++ pyLower command = "handle_user" then handle_user st p
  else if "handle_" ++ pyLower command = "handle_pass" then handle_pass st p
  else if "handle_" ++ pyLower command = "handle_capa" then handle_capa st p
  else if "handle_" ++ pyLower command = "handle_stat" then handle_stat st p
  else if "handle_" ++ pyLower command = "handle_list" then handle_list st p
  else if "handle_" ++ pyLower command = "handle_uidl" then handle_uidl st p
  else if "handle_" ++ pyLower command = "handle_top" then handle_top st p
  else if "handle_" ++ pyLower command = "handle_retr" then handle_retr st p
  else if "handle_" ++ pyLower command = "handle_dele" then handle_dele st p
  else if "handle_" ++ pyLower command = "handle_noop" then handle_noop st p
  else if "handle_" ++ pyLower command = "handle_quit" then handle_quit st p
  else handle_unknown st p

/-- `process_line`: split the line into verb and optional parameter,
dispatch, and turn a raised ValueError into a `-ERR` response.  A line
whose split is empty makes `words.pop(0)` raise an IndexError, which this
layer does not catch. -/
def process_line (st : POPConnection) (line : String) : HResult :=
  match pySplit1 line with
  | [] => .error .indexError
  | command :: ws =>
    match get_handler command st ws.head? with
    | .ok r => .ok r
    | .error (.valueError args) => .ok (st, [send_err [PyExn.str (.valueError args)]])
    | .error e => .error e

/-- The read/dispatch loop of `process_connection`.  Every iteration that
recurses consumes at least one chunk, so fuel `chunks.length + 1` is never
exhausted. -/
def processLoop : Nat → POPConnection → List (List Char) →
    List String × Except PyExn POPConnection
  | 0, st, _ => ([], .ok st)
  | fuel + 1, st, chunks =>
    if st.connected then
      match recvall crlf chunks with
      | (none, _) => ([], .ok { st with connected := false })
      | (some line, rest) =>
        if line.isEmpty then processLoop fuel st rest
        else
          match process_line st (String.mk line) with
          | .error e => ([], .error e)
          | .ok (st2, resps) =>
            let (more, outcome) := processLoop fuel st2 rest
            (resps ++ more, outcome)
    else ([], .ok st)

/-- `POPConnection.process_connection`: banner, then the read/dispatch loop.
Returns every line sent on the connection and either the final state or the
exception that escaped the loop. -/
def process_connection (msgs : List Message) (chunks : List (List Char)) :
    List String × Except PyExn POPConnection :=
  let r := processLoop (chunks.length + 1) { messages := msgs, connected := true } chunks
  (send_ok ["pypopper file-based pop3 server ready"] :: r.1, r.2)

/-- `serve`: accept connections one at a time, each given as its chunk
stream; the first connection whose processing raises stops the server (the
outer `except Exception` logs a fatal error and the listening socket is
closed), so later connections are never serviced.  Returns the lines sent
on each serviced connection. -/
def serve (msgs : List Message) : List (List (List Char)) → List (List String)
  | [] => []
  | conn :: restConns =>
    let r := process_connection msgs conn
    match r.2 with
    | .ok _ => r.1 :: serve msgs restConns
    | .error _ => [r.1]

/-! ## Concrete fixture: a three-message mailbox -/

/-- Fixture message 1. -/
def msgA : Message := { filename := "mail/alpha", content := "Subject: alpha\n\nline one\nline two\n" }

/-- Fixture message 2. -/
def msgB : Message := { filename := "mail/bravo", content := "Subject: b\n\nbbb\n" }

/-- Fixture message 3. -/
def msgC : Message := { filename := "mail/charlie", content := "Subject: c\n\nccc\n" }

/-- A three-message mailbox. -/
def mailbox3 : List Message := [msgA, msgB, msgC]

/-- A fresh connection serving the three-message mailbox. -/
def pop3 : POPConnection := { messages := mailbox3, connected := true }

/-- File system fixture with two source files whose basenames collide. -/
def fsDup : List (String × String) := [("a/m1", "x\n\ny"), ("b/m1", "z\n\nw")]

/-- Source list naming both colliding files. -/
def srcDup : List String := ["a/m1", "b/m1"]

/-! ## Theorems -/

/-- C1: the spec claims that for `n ≤ 0` the numbered commands always answer
`-ERR`.  Evaluating the code on the three-message mailbox: `LIST 0` is
answered `+OK 0 16` — `msgno - 1 = -1` wraps around to the last message
under Python list indexing — while a valid index and an index past the end
behave as the claim states.  The `n = 0` case therefore contradicts the
claim, and contradicts the validity check `_param2message` itself tries to
implement. -/
theorem c1_zero_msgno_succeeds :
    process_line pop3 "LIST 0" = .ok (pop3, ["+OK 0 16"]) ∧
    process_line pop3 "LIST 2" = .ok (pop3, ["+OK 2 16"]) ∧
    process_line pop3 "LIST 4" = .ok (pop3, ["-ERR (\x27bad message number\x27, 4)"]) ∧
    process_line pop3 "LIST abc" = .ok (pop3, ["-ERR (\x27bad number\x27, \x27abc\x27)"]) :=
  ⟨by rfl, by rfl, by rfl, by rfl⟩

/-- C2: the spec claims no dispatch failure ever escapes to the listening
server.  A line holding only whitespace makes `line.split` return the empty
list, `words.pop(0)` raises an uncaught IndexError, and `serve` treats the
escaped exception as fatal: with two queued connections, the first sending
a lone `" \r\n"` line receives only the banner and the second connection is
never serviced. -/
theorem c2_whitespace_line_kills_server :
    serve mailbox3 [[" \r\n".toList], ["NOOP\r\n".toList]] =
      [["+OK pypopper file-based pop3 server ready"]] ∧
    process_line pop3 " " = .error .indexError :=
  ⟨by rfl, by rfl⟩

/-- C3: the spec claims bytes after the delimiter are buffered and become
the start of the next line.  The code instead discards them (its own FIXME
comment says so): a chunk `"ABC\r\nDEF"` yields the line `ABC`, the surplus
`DEF` is gone, and the next call returns `GHI` from the following chunk
rather than a line starting with `DEF`. -/
theorem c3_surplus_discarded :
    recvall crlf ["ABC\r\nDEF".toList, "GHI\r\n".toList] =
      (some "ABC".toList, ["GHI\r\n".toList]) ∧
    recvall crlf ["GHI\r\n".toList] = (some "GHI".toList, []) :=
  ⟨by rfl, by rfl⟩

/-- C4 counterexample: the claim fixes the exact response to `RETR 99` as
`-ERR bad message number 99`, but `send_err` stringifies the caught
two-argument ValueError, producing the tuple repr
`-ERR ('bad message number', 99)`; the claimed line is never sent. -/
theorem c4_counterexample :
    (process_connection mailbox3 ["RETR 99\r\n".toList, "NOOP\r\n".toList]).1 =
      ["+OK pypopper file-based pop3 server ready",
       "-ERR (\x27bad message number\x27, 99)", "+OK"] ∧
    "-ERR bad message number 99" ∉
      (process_connection mailbox3 ["RETR 99\r\n".toList, "NOOP\r\n".toList]).1 := by
  exact ⟨by rfl, by decide⟩

/-- C4 amended: `RETR 99` against the three-message mailbox is answered
`-ERR ('bad message number', 99)` — the stringified ValueError — and the
connection stays open: the following `NOOP` is still answered `+OK`, and
the loop ends normally only when the peer closes the stream. -/
theorem c4_retr99_session :
    process_connection mailbox3 ["RETR 99\r\n".toList, "NOOP\r\n".toList] =
      (["+OK pypopper file-based pop3 server ready",
        "-ERR (\x27bad message number\x27, 99)", "+OK"],
       .ok { messages := mailbox3, connected := false }) := by
  rfl

/-- C5 counterexample: the claim asserts that any line whose CRLF delimiter
is split across two reads is returned correctly, with no delimiter inside a
returned line.  If the chunk carrying the `\n` also holds a later complete
delimiter, the whole-chunk containment check fires first and the framer
returns `AB\r\nCD` — two lines merged, with the delimiter inside — instead
of the line `AB`. -/
theorem c5_counterexample :
    recvall crlf ["AB\r".toList, "\nCD\r\n".toList] = (some "AB\r\nCD".toList, []) ∧
    containsSub crlf "AB\r\nCD".toList = true :=
  ⟨by rfl, by rfl⟩

/-- Accumulating the sizes with foldl, as `handle_stat` and `handle_list`
do, computes the sum of the sizes. -/
theorem foldl_size_eq_sum (msgs : List Message) (n : Nat) :
    msgs.foldl (fun a m => a + m.size) n = n + (msgs.map Message.size).sum := by
  induction msgs generalizing n with
  | nil => simp
  | cons m rest ih => simp only [List.foldl_cons, List.map_cons, List.sum_cons, ih]; omega

/-- C6: STAT with no parameter answers `+OK count total` where count is the
number of messages in the list and total is the sum of the message sizes,
and the connection state comes back unchanged — so a repeated STAT against
the same list returns the identical response. -/
theorem c6_stat_reports_sum (msgs : List Message) (c : Bool) :
    handle_stat { messages := msgs, connected := c } none =
      .ok ({ messages := msgs, connected := c },
        [send_ok [toString msgs.length, toString ((msgs.map Message.size).sum)]]) := by
  simp [handle_stat, param1unused, foldl_size_eq_sum]

/-- The uid column of a refreshed message list is the basename column of
the sources that exist on the file system, in order. -/
theorem refresh_map_uid (fs : List (String × String)) (sources : List String) :
    (refresh fs sources).map Message.uid =
      (sources.filter (fun fn => (fs.lookup fn).isSome)).map pyBasename := by
  induction sources with
  | nil => rfl
  | cons fn rest ih =>
    simp only [refresh, List.filterMap_cons, List.filter_cons]
    cases h : fs.lookup fn with
    | none => simpa [h] using ih
    | some content => simpa [h, Message.uid] using ih

/-- C8 amended: each identifier is the basename of the message source name,
and identifiers are unique within the active list provided the loaded
source names have pairwise distinct basenames (the code never enforces
this, so colliding basenames do collide). -/
theorem c8_uid_unique (fs : List (String × String)) (sources : List String)
    (h : ((sources.filter (fun fn => (fs.lookup fn).isSome)).map pyBasename).Nodup) :
    ((refresh fs sources).map Message.uid).Nodup := by
  rw [refresh_map_uid]; exact h

/-- C8 witness: two sources with distinct basenames produce a list with
distinct identifiers. -/
theorem c8_uid_unique_witness :
    ((refresh [("a/m1", "x\n\ny"), ("b/m2", "z\n\nw")] ["a/m1", "b/m2"]).map Message.uid).Nodup :=
  c8_uid_unique [("a/m1", "x\n\ny"), ("b/m2", "z\n\nw")] ["a/m1", "b/m2"] (by decide)

/-- C8 counterexample: identifiers are the basenames of the source files,
so two sources with the same basename yield two messages in the active
list with the same identifier, refuting the claimed uniqueness invariant. -/
theorem c8_counterexample :
    (refresh fsDup srcDup).map Message.uid = ["m1", "m1"] ∧
    ¬ ((refresh fsDup srcDup).map Message.uid).Nodup := by
  exact ⟨by rfl, by decide⟩

/-- A prefix of a list is still a prefix after appending on the right. -/
theorem isPrefixOf_append_right {pat xs ys : List Char}
    (h : pat.isPrefixOf xs = true) : pat.isPrefixOf (xs ++ ys) = true := by
  rw [List.isPrefixOf_iff_prefix] at h ⊢
  exact h.trans (List.prefix_append xs ys)

/-- `splitFirst` with the empty pattern always succeeds. -/
theorem splitFirst_nil_pat (s : List Char) : (splitFirst [] s).isSome := by
  cases s <;> simp [splitFirst, List.isPrefixOf]

/-- If the pattern does not occur in `xs ++ ys`, it does not occur in `xs`. -/
theorem splitFirst_none_append {pat xs ys : List Char}
    (h : splitFirst pat (xs ++ ys) = none) : splitFirst pat xs = none := by
  induction xs with
  | nil =>
    rcases pat with _ | ⟨c, t⟩
    · have := splitFirst_nil_pat ys
      simp only [List.nil_append] at h
      rw [h] at this
      simp at this
    · simp [splitFirst]
  | cons c t ih =>
    rw [List.cons_append] at h
    rw [splitFirst] at h ⊢
    by_cases hpre : pat.isPrefixOf (c :: t) = true
    · have : pat.isPrefixOf (c :: (t ++ ys)) = true := by
        have := @isPrefixOf_append_right pat (c :: t) ys hpre
        simpa using this
      rw [this] at h
      simp at h
    · rw [if_neg (by simp [hpre])]
      by_cases hpre2 : pat.isPrefixOf (c :: (t ++ ys)) = true
      · rw [if_pos hpre2] at h; simp at h
      · rw [if_neg hpre2] at h
        cases hsp : splitFirst pat (t ++ ys) with
        | none => rw [ih hsp]
        | some ab => rw [hsp] at h; rcases ab with ⟨a, b⟩; simp at h

/-- Locating the CRLF delimiter across the boundary: if CRLF does not occur
in `A ++ [CR]`, then the first CRLF of `A ++ CR :: LF :: B` is exactly the
one at the boundary, so the split yields `(A, B)`. -/
theorem splitFirst_cross (A B : List Char)
    (h : splitFirst crlf (A ++ ['\r']) = none) :
    splitFirst crlf (A ++ '\r' :: '\n' :: B) = some (A, B) := by
  induction A with
  | nil => simp [splitFirst, crlf, List.isPrefixOf]
  | cons a A2 ih =>
    rw [List.cons_append] at h
    rw [splitFirst, crlf] at h
    rw [List.cons_append, splitFirst, crlf]
    have hsame : List.isPrefixOf ['\r', '\n'] (a :: (A2 ++ '\r' :: '\n' :: B)) =
        List.isPrefixOf ['\r', '\n'] (a :: (A2 ++ ['\r'])) := by
      cases A2 <;> simp [List.isPrefixOf]
    by_cases hpre : List.isPrefixOf ['\r', '\n'] (a :: (A2 ++ ['\r'])) = true
    · rw [if_pos hpre] at h; simp at h
    · rw [if_neg hpre] at h
      rw [if_neg (by rw [hsame]; exact hpre)]
      cases hsp : splitFirst crlf (A2 ++ ['\r']) with
      | some ab => rw [crlf] at hsp; rw [hsp] at h; rcases ab with ⟨x, y⟩; simp at h
      | none =>
        have := ih hsp
        rw [crlf] at this
        rw [this]

/-- C5 amended: a line whose CRLF delimiter arrives split across two reads
(the CR ending one chunk, the LF starting the next) is reassembled into the
one correct line — provided the chunk carrying the LF does not itself
contain a further complete delimiter (the counterexample shows that case
merges two lines).  No characters are duplicated or dropped and the
returned line does not contain the delimiter. -/
theorem c5_split_delimiter_reassembled (A B : List Char)
    (h1 : splitFirst crlf (A ++ ['\r']) = none)
    (h2 : splitFirst crlf ('\n' :: B) = none) :
    recvall crlf [A ++ ['\r'], '\n' :: B] = (some A, []) ∧
    splitFirst crlf A = none := by
  refine ⟨?_, splitFirst_none_append h1⟩
  have hne : (A ++ ['\r']).isEmpty = false := by cases A <;> rfl
  rw [recvall, recvallGo, hne]
  simp only [Bool.false_eq_true, if_false, h1]
  rw [recvallGo]
  simp only [List.isEmpty_cons, Bool.false_eq_true, if_false, h2]
  have hpair : (A ++ ['\r']) ++ '\n' :: B = A ++ '\r' :: '\n' :: B := by
    rw [List.append_assoc]; rfl
  rw [hpair, splitFirst_cross A B h1]
  simp

/-- C5 witness: the two chunks `"AB\r"` and `"\n more"` reassemble to the
line `AB`. -/
theorem c5_split_delimiter_witness :
    recvall crlf ["AB".toList ++ ['\r'], '\n' :: " more".toList] = (some "AB".toList, []) ∧
    splitFirst crlf "AB".toList = none :=
  c5_split_delimiter_reassembled "AB".toList " more".toList (by rfl) (by rfl)

/-- Splitting a body into lines always produces at least one field. -/
theorem splitOnCh_length_pos (pat s : List Char) : 0 < (splitOnCh pat s).length := by
  simp only [splitOnCh, splitOnChGo]
  split <;> simp

/-- C7: for a resolvable message number and a parsed line count `k`, TOP
with `k = 0` answers `+OK` with the header followed by the blank separator
line and no body lines (Python truthiness skips the body entirely), and TOP
with `k` at least the body line count answers `+OK` with the header and the
whole body (the slice `lines[:k]` returns every line).  `hd`/`bd` are the
header and body of the message: the text before and after its first blank
line. -/
theorem c7_top_zero_and_full (st : POPConnection) (p ns ks : String) (m : Message)
    (n k : Int) (hd bd : List Char)
    (hw : pyWords p = [ns, ks])
    (hm : param2message st.messages ns = .ok (m, n))
    (hk : pyInt ks = some k)
    (hs : splitFirst lflf m.content.toList = some (hd, bd)) :
    (k = 0 → handle_top st (some p) = .ok (st,
      [send_ok ["top of message follows\r\n" ++ (String.mk hd ++ "\r\n\r\n") ++ "\r\n."]])) ∧
    (((splitOnCh ['\n'] bd).length : Int) ≤ k → handle_top st (some p) = .ok (st,
      [send_ok ["top of message follows\r\n" ++
        (String.mk hd ++ "\r\n\r\n" ++
          joinSep "\r\n" ((splitOnCh ['\n'] bd).map String.mk)) ++ "\r\n."]])) := by
  have hs2 : splitFirst lflf m.content.data = some (hd, bd) := hs
  constructor
  · intro h0
    subst h0
    simp [handle_top, hw, hm, hk, Message.top, hs, hs2]
  · intro hlen
    have hpos := splitOnCh_length_pos ['\n'] bd
    have hk0 : ¬ (k = 0) := by omega
    have hkneg : ¬ (k < 0) := by omega
    simp only [handle_top, hw, hm, hk, Message.top, hs, hs2, if_neg hk0]
    rw [pyTakeTo, if_neg hkneg, List.take_of_length_le (by omega)]

/-- C7 witness: `TOP 2 5` on the fixture returns the header of message 2
followed by its entire two-field body. -/
theorem c7_top_witness :
    handle_top pop3 (some "2 5") = .ok (pop3,
      [send_ok ["top of message follows\r\n" ++
        (String.mk "Subject: b".toList ++ "\r\n\r\n" ++
          joinSep "\r\n" ((splitOnCh ['\n'] "bbb\n".toList).map String.mk)) ++ "\r\n."]]) :=
  (c7_top_zero_and_full pop3 "2 5" "2" "5" msgB 2 5 "Subject: b".toList "bbb\n".toList
    (by rfl) (by rfl) (by rfl) (by rfl)).2 (by decide)

/-- C10: for a resolvable message number and a parsed negative line count
`k`, TOP does not report an error: the negative count flows into the Python
slice `lines[:k]`, so the handler answers `+OK` with the header followed by
all body lines except the last `|k|`. -/
theorem c10_top_negative_count (st : POPConnection) (p ns ks : String) (m : Message)
    (n k : Int) (hd bd : List Char)
    (hw : pyWords p = [ns, ks])
    (hm : param2message st.messages ns = .ok (m, n))
    (hk : pyInt ks = some k)
    (hneg : k < 0)
    (hs : splitFirst lflf m.content.toList = some (hd, bd)) :
    handle_top st (some p) = .ok (st,
      [send_ok ["top of message follows\r\n" ++
        (String.mk hd ++ "\r\n\r\n" ++
          joinSep "\r\n" (((splitOnCh ['\n'] bd).take
            ((splitOnCh ['\n'] bd).length - k.natAbs)).map String.mk)) ++ "\r\n."]]) := by
  have hk0 : ¬ (k = 0) := by omega
  have habs : (-k).toNat = k.natAbs := by omega
  have hs2 : splitFirst lflf m.content.data = some (hd, bd) := hs
  simp only [handle_top, hw, hm, hk, Message.top, hs, hs2, if_neg hk0]
  rw [pyTakeTo, if_pos hneg, habs]

/-- C10 witness: `TOP 2 -1` on the fixture is answered `+OK` with the body
truncated by its final field. -/
theorem c10_top_negative_witness :
    handle_top pop3 (some "2 -1") = .ok (pop3,
      [send_ok ["top of message follows\r\n" ++
        (String.mk "Subject: b".toList ++ "\r\n\r\n" ++
          joinSep "\r\n" (((splitOnCh ['\n'] "bbb\n".toList).take
            ((splitOnCh ['\n'] "bbb\n".toList).length - (-1 : Int).natAbs)).map String.mk)) ++
        "\r\n."]]) :=
  c10_top_negative_count pop3 "2 -1" "2" "-1" msgB 2 (-1) "Subject: b".toList "bbb\n".toList
    (by rfl) (by rfl) (by rfl) (by decide) (by rfl)

/-- `handle_unknown` never succeeds. -/
theorem handle_unknown_keeps {st st2 : POPConnection} {p : Option String} {rs : List String}
    (h : handle_unknown st p = .ok (st2, rs)) : st2.messages = st.messages := by
  simp [handle_unknown] at h

/-- `handle_user` keeps the message list. -/
theorem handle_user_keeps {st st2 : POPConnection} {p : Option String} {rs : List String}
    (h : handle_user st p = .ok (st2, rs)) : st2.messages = st.messages := by
  unfold handle_user param1used at h
  repeat' split at h
  all_goals simp_all

/-- `handle_pass` keeps the message list. -/
theorem handle_pass_keeps {st st2 : POPConnection} {p : Option String} {rs : List String}
    (h : handle_pass st p = .ok (st2, rs)) : st2.messages = st.messages := by
  unfold handle_pass param1used at h
  repeat' split at h
  all_goals simp_all

/-- `handle_capa` keeps the message list. -/
theorem handle_capa_keeps {st st2 : POPConnection} {p : Option String} {rs : List String}
    (h : handle_capa st p = .ok (st2, rs)) : st2.messages = st.messages := by
  unfold handle_capa param1unused at h
  repeat' split at h
  all_goals simp_all

/-- `handle_stat` keeps the message list. -/
theorem handle_stat_keeps {st st2 : POPConnection} {p : Option String} {rs : List String}
    (h : handle_stat st p = .ok (st2, rs)) : st2.messages = st.messages := by
  unfold handle_stat param1unused at h
  repeat' split at h
  all_goals simp_all

/-- `handle_list` keeps the message list. -/
theorem handle_list_keeps {st st2 : POPConnection} {p : Option String} {rs : List String}
    (h : handle_list st p = .ok (st2, rs)) : st2.messages = st.messages := by
  unfold handle_list handle_list_all at h
  repeat' split at h
  all_goals simp_all

/-- `handle_uidl` keeps the message list. -/
theorem handle_uidl_keeps {st st2 : POPConnection} {p : Option String} {rs : List String}
    (h : handle_uidl st p = .ok (st2, rs)) : st2.messages = st.messages := by
  unfold handle_uidl handle_uidl_all at h
  repeat' split at h
  all_goals simp_all

/-- `handle_top` keeps the message list. -/
theorem handle_top_keeps {st st2 : POPConnection} {p : Option String} {rs : List String}
    (h : handle_top st p = .ok (st2, rs)) : st2.messages = st.messages := by
  unfold handle_top at h
  repeat' split at h
  all_goals simp_all

/-- `handle_retr` keeps the message list. -/
theorem handle_retr_keeps {st st2 : POPConnection} {p : Option String} {rs : List String}
    (h : handle_retr st p = .ok (st2, rs)) : st2.messages = st.messages := by
  unfold handle_retr at h
  repeat' split at h
  all_goals simp_all

/-- `handle_dele` keeps the message list. -/
theorem handle_dele_keeps {st st2 : POPConnection} {p : Option String} {rs : List String}
    (h : handle_dele st p = .ok (st2, rs)) : st2.messages = st.messages := by
  unfold handle_dele at h
  repeat' split at h
  all_goals simp_all

/-- `handle_noop` keeps the message list. -/
theorem handle_noop_keeps {st st2 : POPConnection} {p : Option String} {rs : List String}
    (h : handle_noop st p = .ok (st2, rs)) : st2.messages = st.messages := by
  unfold handle_noop param1unused at h
  repeat' split at h
  all_goals simp_all

/-- `handle_quit` clears the `connected` flag but keeps the message list. -/
theorem handle_quit_keeps {st st2 : POPConnection} {p : Option String} {rs : List String}
    (h : handle_quit st p = .ok (st2, rs)) : st2.messages = st.messages := by
  unfold handle_quit param1unused at h
  repeat' split at h
  all_goals simp_all
  all_goals (obtain ⟨h1, h2⟩ := h; subst h1; rfl)

/-- Whatever handler the dispatcher selects, a successful run keeps the
message list. -/
theorem get_handler_keeps {cmd : String} {st st2 : POPConnection} {p : Option String}
    {rs : List String} (h : get_handler cmd st p = .ok (st2, rs)) :
    st2.messages = st.messages := by
  unfold get_handler at h
  by_cases c1 : "handle_" ++ pyLower cmd = "handle_user"
  · rw [if_pos c1] at h; exact handle_user_keeps h
  rw [if_neg c1] at h
  by_cases c2 : "handle_" ++ pyLower cmd = "handle_pass"
  · rw [if_pos c2] at h; exact handle_pass_keeps h
  rw [if_neg c2] at h
  by_cases c3 : "handle_" ++ pyLower cmd = "handle_capa"
  · rw [if_pos c3] at h; exact handle_capa_keeps h
  rw [if_neg c3] at h
  by_cases c4 : "handle_" ++ pyLower cmd = "handle_stat"
  · rw [if_pos c4] at h; exact handle_stat_keeps h
  rw [if_neg c4] at h
  by_cases c5 : "handle_" ++ pyLower cmd = "handle_list"
  · rw [if_pos c5] at h; exact handle_list_keeps h
  rw [if_neg c5] at h
  by_cases c6 : "handle_" ++ pyLower cmd = "handle_uidl"
  · rw [if_pos c6] at h; exact handle_uidl_keeps h
  rw [if_neg c6] at h
  by_cases c7 : "handle_" ++ pyLower cmd = "handle_top"
  · rw [if_pos c7] at h; exact handle_top_keeps h
  rw [if_neg c7] at h
  by_cases c8 : "handle_" ++ pyLower cmd = "handle_retr"
  · rw [if_pos c8] at h; exact handle_retr_keeps h
  rw [if_neg c8] at h
  by_cases c9 : "handle_" ++ pyLower cmd = "handle_dele"
  · rw [if_pos c9] at h; exact handle_dele_keeps h
  rw [if_neg c9] at h
  by_cases c10 : "handle_" ++ pyLower cmd = "handle_noop"
  · rw [if_pos c10] at h; exact handle_noop_keeps h
  rw [if_neg c10] at h
  by_cases c11 : "handle_" ++ pyLower cmd = "handle_quit"
  · rw [if_pos c11] at h; exact handle_quit_keeps h
  rw [if_neg c11] at h
  exact handle_unknown_keeps h

/-- C9: every command line whose processing completes leaves the message
list untouched — the same list, element for element, with the same
identifiers; in particular DELE removes nothing.  The only state a handler
may change is the `connected` flag, and the `-ERR` recovery path answers
from the unchanged state. -/
theorem c9_messages_invariant (st : POPConnection) (line : String)
    (st2 : POPConnection) (rs : List String)
    (h : process_line st line = .ok (st2, rs)) : st2.messages = st.messages := by
  cases hsp : pySplit1 line with
  | nil => simp [process_line, hsp] at h
  | cons cmd ws =>
    cases hg : get_handler cmd st ws.head? with
    | ok r =>
      obtain ⟨a, b⟩ := r
      simp [process_line, hsp, hg] at h
      obtain ⟨h1, h2⟩ := h
      subst h1
      exact get_handler_keeps hg
    | error e =>
      cases e with
      | valueError args =>
        simp [process_line, hsp, hg] at h
        obtain ⟨h1, h2⟩ := h
        rw [← h1]
      | indexError => simp [process_line, hsp, hg] at h

/-- C9 witness: a concrete DELE against the fixture mailbox succeeds and
the resulting state carries the identical message list. -/
theorem c9_messages_invariant_witness : pop3.messages = pop3.messages :=
  c9_messages_invariant pop3 "DELE 2" pop3 ["+OK message 2 deleted (fake)"] (by rfl)

end Pypopper
